import Mathlib

set_option maxRecDepth 40000

/-!
Verification of the `yapl` prime library (src/lib.rs): the primality
tester `is_prime` over unsigned 64-bit integers and the sequential
prime generator `PrimeIterator`.

Machine integers are embedded as `Nat`.  Unsigned 64-bit overflow is a
program error in the source language (it aborts when overflow checks
are enabled and wraps otherwise); the embedding surfaces that event as
`none`, so every operation that can overflow returns `Option _`.
Source loops are embedded structurally with an explicit fuel argument;
the fuel is chosen large enough that it is provably never exhausted on
the 64-bit domain (the overflow check stops the trial-division loop at
`i = 4294967297` at the latest), so `none` results are genuine
overflow events, never fuel exhaustion.
-/

/-- The number of unsigned 64-bit values, `2 ^ 64`. -/
def U64 : Nat := 18446744073709551616

/-- Largest `n` for which the trial-division loop is overflow-free:
`4294967291 ^ 2`, the square of the largest probe `i ≡ 5 [MOD 6]`
whose square fits in a `u64`. -/
def N0 : Nat := 18446744030759878681

/-- Trial-division loop of `is_prime` (src/lib.rs lines 40-46), with
checked 64-bit arithmetic: computing `i * i` outside the `u64` range
is the overflow event and yields `none`.  The first argument is fuel;
`is_prime` supplies `primeFuel`, which is provably sufficient. -/
def trialLoop (n : Nat) : Nat → Nat → Option Bool
  | 0, _ => none
  | fuel + 1, i =>
    if U64 ≤ i * i then none
    else if i * i ≤ n then
      if n % i == 0 || n % (i + 2) == 0 then some false
      else trialLoop n fuel (i + 6)
    else some true

/-- Fuel for `trialLoop`: `2 ^ 30`, more than the at most
`(4294967297 - 5) / 6 + 1 = 715827883` iterations the loop can make
before its guard either fails or overflows. -/
def primeFuel : Nat := 1073741824

/-- Embedding of `is_prime` (src/lib.rs lines 31-48).  `some b` means
the source function returns `b`; `none` means the `i * i` squaring
overflows the 64-bit range (a program error in the source). -/
def is_prime (n : Nat) : Option Bool :=
  if n ≤ 1 then some false
  else if n ≤ 3 then some true
  else if n % 2 == 0 || n % 3 == 0 then some false
  else trialLoop n primeFuel 5

/-- Embedding of the `PrimeIterator` struct (src/lib.rs): a single
`u64` cursor field `number`. -/
structure PrimeIterator where
  number : Nat
deriving DecidableEq

/-- Embedding of `PrimeIterator::new` (src/lib.rs lines 80-82): the
cursor starts at 1. -/
def PrimeIterator.new : PrimeIterator := ⟨1⟩

/-- Scan loop of `Iterator::next for PrimeIterator` (src/lib.rs lines
100-110), with checked cursor arithmetic: `none` means either the
cursor increment `self.number += 1` overflowed `u64` or the call to
`is_prime` overflowed.  The fuel `nextFuel` is provably sufficient:
the cursor check stops the loop before `U64` steps. -/
def nextLoop : Nat → Nat → Option Nat
  | 0, _ => none
  | fuel + 1, number =>
    if U64 ≤ number + 1 then none
    else
      match is_prime (number + 1) with
      | none => none
      | some true => some (number + 1)
      | some false => nextLoop fuel (number + 1)

/-- Fuel for `nextLoop`: `U64` steps always reach the cursor bound. -/
def nextFuel : Nat := U64

/-- Embedding of `PrimeIterator::next`.  The outer `Option` is the
checked-execution layer (`none` = overflow, i.e. the call does not
return normally); on normal return the result is the pair of the Rust
return value `Option<u64>` (the source only ever returns `Some`) and
the successor iterator state. -/
def PrimeIterator.next (s : PrimeIterator) : Option (Option Nat × PrimeIterator) :=
  (nextLoop nextFuel s.number).map fun v => (some v, ⟨v⟩)

/-- State of a fresh generator after `k` calls to `next`; `none` once
any call has failed to return normally. -/
def genState : Nat → Option PrimeIterator
  | 0 => some PrimeIterator.new
  | k + 1 =>
    match genState k with
    | none => none
    | some s =>
      match s.next with
      | none => none
      | some (_, s1) => some s1

/-- Rust return value of the `(k+1)`-st call to `next` on a fresh
generator (`k` is 0-indexed); the outer `Option` is the
checked-execution layer. -/
def output (k : Nat) : Option (Option Nat) :=
  match genState k with
  | none => none
  | some s =>
    match s.next with
    | none => none
    | some (r, _) => some r

/-! ### Correctness of the trial-division loop on the overflow-free range -/

lemma trialLoop_step (n fuel i : Nat) :
    trialLoop n (fuel + 1) i =
      if U64 ≤ i * i then none
      else if i * i ≤ n then
        if n % i == 0 || n % (i + 2) == 0 then some false
        else trialLoop n fuel (i + 6)
      else some true := rfl

lemma not_prime_of_proper_divisor {n d : Nat} (h2 : 2 ≤ d) (hlt : d < n)
    (hdvd : d ∣ n) : ¬ Nat.Prime n := by
  intro hp
  rcases (Nat.Prime.eq_one_or_self_of_dvd hp d hdvd) with h | h <;> omega

lemma prime_of_no_small_divisor {n i : Nat} (h3 : 3 < n)
    (hinv : ∀ m, 2 ≤ m → m < i → ¬ m ∣ n) (hbig : n < i * i) :
    Nat.Prime n := by
  by_contra hnp
  have hn1 : n ≠ 1 := by omega
  have hpf : (Nat.minFac n).Prime := Nat.minFac_prime hn1
  have h2 : 2 ≤ Nat.minFac n := hpf.two_le
  have hsq : Nat.minFac n * Nat.minFac n ≤ n := by
    have := Nat.minFac_sq_le_self (by omega : 0 < n) hnp
    simpa [Nat.pow_two] using this
  have hlt : Nat.minFac n < i := by
    by_contra hcon
    push_neg at hcon
    have h4 : i * i ≤ Nat.minFac n * Nat.minFac n := Nat.mul_le_mul hcon hcon
    exact absurd hbig (Nat.not_lt.mpr (le_trans h4 hsq))
  exact hinv (Nat.minFac n) h2 hlt (Nat.minFac_dvd n)

lemma trialLoop_correct {n : Nat} (h3 : 3 < n) (hN : n < N0) :
    ∀ fuel i, i % 6 = 5 →
      (∀ m, 2 ≤ m → m < i → ¬ m ∣ n) →
      (i = 5 ∨ (i - 6) * (i - 6) ≤ n) →
      i ≤ 4294967297 → 4294967303 ≤ 6 * fuel + i →
      ∃ b, trialLoop n fuel i = some b ∧ (b = true ↔ Nat.Prime n) := by
  intro fuel
  induction fuel with
  | zero => intro i _ _ _ hle hbud; omega
  | succ fuel ih =>
    intro i hmod hinv hprev hle hbud
    have hi5 : 5 ≤ i := by omega
    rw [trialLoop_step]
    by_cases hov : U64 ≤ i * i
    · -- the overflow branch is unreachable below N0
      exfalso
      rcases hprev with rfl | hprev
      · exact absurd hov (by norm_num [U64])
      · have h1 : i - 6 < 4294967291 := by
          by_contra hcon
          push_neg at hcon
          have h2 : 4294967291 * 4294967291 ≤ (i - 6) * (i - 6) :=
            Nat.mul_le_mul hcon hcon
          have h3 : (4294967291 : Nat) * 4294967291 ≤ n := le_trans h2 hprev
          rw [show (4294967291 : Nat) * 4294967291 = N0 by norm_num [N0]] at h3
          omega
        have h2 : i ≤ 4294967291 := by omega
        have h4 : i * i ≤ 4294967291 * 4294967291 := Nat.mul_le_mul h2 h2
        have h5 := le_trans hov h4
        norm_num [U64] at h5
    · rw [if_neg hov]
      by_cases hguard : i * i ≤ n
      · rw [if_pos hguard]
        have hilt : i < n := lt_of_lt_of_le (by nlinarith : i < i * i) hguard
        have hi2lt : i + 2 < n := lt_of_lt_of_le (by nlinarith : i + 2 < i * i) hguard
        by_cases hdiv : (n % i == 0 || n % (i + 2) == 0) = true
        · -- a divisor was found: n is composite
          rw [if_pos hdiv]
          refine ⟨false, rfl, iff_of_false (by simp) ?_⟩
          simp only [Bool.or_eq_true, beq_iff_eq] at hdiv
          rcases hdiv with hd | hd
          · exact not_prime_of_proper_divisor (by omega) hilt
              (Nat.dvd_of_mod_eq_zero hd)
          · exact not_prime_of_proper_divisor (by omega) hi2lt
              (Nat.dvd_of_mod_eq_zero hd)
        · -- no divisor at this probe: continue
          rw [if_neg hdiv]
          simp only [Bool.or_eq_true, beq_iff_eq, not_or] at hdiv
          have hnd1 : ¬ i ∣ n := fun hd => hdiv.1 (Nat.mod_eq_zero_of_dvd hd)
          have hnd2 : ¬ (i + 2) ∣ n := fun hd => hdiv.2 (Nat.mod_eq_zero_of_dvd hd)
          have h2n : ¬ (2 : Nat) ∣ n := hinv 2 (by omega) (by omega)
          have h3n : ¬ (3 : Nat) ∣ n := hinv 3 (by omega) (by omega)
          have hinv6 : ∀ m, 2 ≤ m → m < i + 6 → ¬ m ∣ n := by
            intro m hm2 hm6 hmd
            by_cases hmi : m < i
            · exact hinv m hm2 hmi hmd
            · push_neg at hmi
              have hcases : m = i ∨ m = i + 1 ∨ m = i + 2 ∨ m = i + 3 ∨
                  m = i + 4 ∨ m = i + 5 := by omega
              rcases hcases with rfl | rfl | rfl | rfl | rfl | rfl
              · exact hnd1 hmd
              · exact h2n (dvd_trans (show (2 : Nat) ∣ i + 1 by omega) hmd)
              · exact hnd2 hmd
              · exact h2n (dvd_trans (show (2 : Nat) ∣ i + 3 by omega) hmd)
              · exact h3n (dvd_trans (show (3 : Nat) ∣ i + 4 by omega) hmd)
              · exact h2n (dvd_trans (show (2 : Nat) ∣ i + 5 by omega) hmd)
          have hile : i ≤ 4294967285 := by
            have hlt : i < 4294967291 := by
              by_contra hcon
              push_neg at hcon
              have h4 : 4294967291 * 4294967291 ≤ i * i := Nat.mul_le_mul hcon hcon
              have h5 : (4294967291 : Nat) * 4294967291 ≤ n := le_trans h4 hguard
              rw [show (4294967291 : Nat) * 4294967291 = N0 by norm_num [N0]] at h5
              omega
            omega
          have hrec := ih (i + 6) (by omega) hinv6
            (Or.inr (by simpa using hguard)) (by omega) (by omega)
          exact hrec
      · rw [if_neg hguard]
        exact ⟨true, rfl,
          iff_of_true rfl (prime_of_no_small_divisor h3 hinv (Nat.not_le.mp hguard))⟩

/-- On the overflow-free range `n < N0`, `is_prime` terminates normally
and decides primality. -/
theorem is_prime_correct (n : Nat) (hN : n < N0) :
    ∃ b, is_prime n = some b ∧ (b = true ↔ Nat.Prime n) := by
  unfold is_prime
  by_cases h1 : n ≤ 1
  · rw [if_pos h1]
    refine ⟨false, rfl, iff_of_false (by simp) ?_⟩
    have : n = 0 ∨ n = 1 := by omega
    rcases this with rfl | rfl
    · exact Nat.not_prime_zero
    · exact Nat.not_prime_one
  · rw [if_neg h1]
    by_cases h3 : n ≤ 3
    · rw [if_pos h3]
      have : n = 2 ∨ n = 3 := by omega
      rcases this with rfl | rfl
      · exact ⟨true, rfl, iff_of_true rfl Nat.prime_two⟩
      · exact ⟨true, rfl, iff_of_true rfl Nat.prime_three⟩
    · rw [if_neg h3]
      by_cases hdiv : (n % 2 == 0 || n % 3 == 0) = true
      · rw [if_pos hdiv]
        simp only [Bool.or_eq_true, beq_iff_eq] at hdiv
        refine ⟨false, rfl, iff_of_false (by simp) ?_⟩
        rcases hdiv with hd | hd
        · exact not_prime_of_proper_divisor (by omega) (by omega)
            (Nat.dvd_of_mod_eq_zero hd)
        · exact not_prime_of_proper_divisor (by omega) (by omega)
            (Nat.dvd_of_mod_eq_zero hd)
      · rw [if_neg hdiv]
        simp only [Bool.or_eq_true, beq_iff_eq, not_or] at hdiv
        apply trialLoop_correct (by omega) hN primeFuel 5 (by norm_num)
        · intro m hm2 hm5 hmd
          have hcase : m = 2 ∨ m = 3 ∨ m = 4 := by omega
          rcases hcase with rfl | rfl | rfl
          · exact hdiv.1 (Nat.mod_eq_zero_of_dvd hmd)
          · exact hdiv.2 (Nat.mod_eq_zero_of_dvd hmd)
          · exact hdiv.1 (Nat.mod_eq_zero_of_dvd (dvd_trans (by norm_num) hmd))
        · exact Or.inl rfl
        · norm_num
        · norm_num [primeFuel]

/-- For a prime `n` in the overflow range `[N0, U64)`, the trial loop
marches from any probe `i = 4294967297 - 6 * k` (with `5 ≤ i`) all the
way to the probe `4294967297`, whose square overflows the 64-bit
range: the loop aborts with `none`. -/
lemma trialLoop_overflow {n : Nat} (hp : Nat.Prime n) (hN : N0 ≤ n) :
    ∀ k fuel i, k < fuel → 5 ≤ i → i + 6 * k = 4294967297 →
      trialLoop n fuel i = none := by
  have hN' : (18446744030759878681 : Nat) ≤ n := hN
  intro k
  induction k with
  | zero =>
    intro fuel i hf hi5 hi
    obtain ⟨f, rfl⟩ : ∃ f, fuel = f + 1 := ⟨fuel - 1, by omega⟩
    have heq : i = 4294967297 := by omega
    subst heq
    rw [trialLoop_step, if_pos (by norm_num [U64])]
  | succ k ih =>
    intro fuel i hf hi5 hi
    obtain ⟨f, rfl⟩ : ∃ f, fuel = f + 1 := ⟨fuel - 1, by omega⟩
    have hile : i ≤ 4294967291 := by omega
    have hsq : i * i ≤ 18446744030759878681 := by
      calc i * i ≤ 4294967291 * 4294967291 := Nat.mul_le_mul hile hile
        _ = 18446744030759878681 := by norm_num
    have hov : ¬ U64 ≤ i * i := by
      intro h
      have := le_trans h hsq
      norm_num [U64] at this
    have hguard : i * i ≤ n := le_trans hsq hN'
    have hd1 : n % i ≠ 0 := by
      intro h0
      rcases hp.eq_one_or_self_of_dvd i (Nat.dvd_of_mod_eq_zero h0) with h | h <;> omega
    have hd2 : n % (i + 2) ≠ 0 := by
      intro h0
      rcases hp.eq_one_or_self_of_dvd (i + 2) (Nat.dvd_of_mod_eq_zero h0) with h | h <;>
        omega
    rw [trialLoop_step, if_neg hov, if_pos hguard, if_neg (by simp [hd1, hd2])]
    exact ih f (i + 6) (by omega) (by omega) (by omega)

/-- For a prime in the overflow range, `is_prime` hits 64-bit overflow
in the squaring `i * i` and aborts. -/
theorem is_prime_overflow {n : Nat} (hp : Nat.Prime n) (hN : N0 ≤ n) :
    is_prime n = none := by
  have hN' : (18446744030759878681 : Nat) ≤ n := hN
  have h2 : n % 2 ≠ 0 := by
    intro h0
    rcases hp.eq_one_or_self_of_dvd 2 (Nat.dvd_of_mod_eq_zero h0) with h | h <;> omega
  have h3 : n % 3 ≠ 0 := by
    intro h0
    rcases hp.eq_one_or_self_of_dvd 3 (Nat.dvd_of_mod_eq_zero h0) with h | h <;> omega
  unfold is_prime
  rw [if_neg (by omega), if_neg (by omega), if_neg (by simp [h2, h3])]
  exact trialLoop_overflow hp hN 715827882 primeFuel 5 (by norm_num [primeFuel])
    (by norm_num) (by norm_num)

/-! ### Kernel-friendly modular exponentiation and Lucas certificates

These are proof infrastructure only: they certify the primality of
`18446744073709551557 = 2 ^ 64 - 59`, the failing input that drives the
trial-division loop of `is_prime` into 64-bit overflow. -/

/-- Binary modular exponentiation, structurally recursive on a fuel
argument so the kernel can evaluate it. -/
def powMod (p : Nat) : Nat → Nat → Nat → Nat
  | 0, _, _ => 1 % p
  | f + 1, a, k =>
    if k = 0 then 1 % p
    else
      let h := powMod p f ((a * a) % p) (k / 2)
      if k % 2 = 1 then (h * (a % p)) % p else h

lemma powMod_correct (p : Nat) :
    ∀ f k a, k < 2 ^ f → powMod p f a k = a ^ k % p := by
  intro f
  induction f with
  | zero =>
    intro k a hk
    have : k = 0 := by omega
    subst this
    simp [powMod]
  | succ f ih =>
    intro k a hk
    by_cases hk0 : k = 0
    · subst hk0; simp [powMod]
    · have hk2 : k / 2 < 2 ^ f := by
        rw [Nat.div_lt_iff_lt_mul (by norm_num)]
        calc k < 2 ^ (f + 1) := hk
          _ = 2 ^ f * 2 := by rw [pow_succ]
      rw [powMod, if_neg hk0]
      simp only
      rw [ih (k / 2) ((a * a) % p) hk2]
      by_cases hodd : k % 2 = 1
      · rw [if_pos hodd]
        have hsplit : a ^ k = (a * a) ^ (k / 2) * a := by
          conv_lhs => rw [show k = 2 * (k / 2) + 1 by omega]
          rw [pow_succ, pow_mul, pow_two]
        conv_rhs => rw [hsplit, Nat.mul_mod, Nat.pow_mod]
      · rw [if_neg hodd]
        have hsplit : a ^ k = (a * a) ^ (k / 2) := by
          conv_lhs => rw [show k = 2 * (k / 2) by omega]
          rw [pow_mul, pow_two]
        conv_rhs => rw [hsplit, Nat.pow_mod]

lemma zmod_pow_eq (p a k c : Nat) (hc : powMod p 64 a k = c)
    (hk : k < 2 ^ 64) : ((a : ℕ) : ZMod p) ^ k = ((c : ℕ) : ZMod p) := by
  rw [powMod_correct p 64 k a hk] at hc
  subst hc
  rw [ZMod.natCast_mod, Nat.cast_pow]

lemma zmod_pow_eq_one (p a k : Nat) (hc : powMod p 64 a k = 1 % p)
    (hk : k < 2 ^ 64) : ((a : ℕ) : ZMod p) ^ k = 1 := by
  rw [zmod_pow_eq p a k (1 % p) hc hk, ZMod.natCast_mod, Nat.cast_one]

lemma zmod_pow_ne_one (p a k c : Nat) (hc : powMod p 64 a k = c)
    (hk : k < 2 ^ 64) (hc1 : c % p ≠ 1 % p) : ((a : ℕ) : ZMod p) ^ k ≠ 1 := by
  rw [zmod_pow_eq p a k c hc hk]
  intro h
  have hv := congrArg ZMod.val h
  rw [ZMod.val_natCast, ZMod.val_one_eq_one_mod] at hv
  exact hc1 hv

lemma prime_5594472617641 : Nat.Prime 5594472617641 := by
  apply lucas_primality 5594472617641 ((13 : ℕ) : ZMod 5594472617641)
  · exact zmod_pow_eq_one _ _ _ (by decide) (by norm_num)
  · intro q hq hdvd
    have hfac : (5594472617641 - 1 : Nat) =
        2 * (2 * (2 * (3 * (5 * (1427 * (2131 * 15331)))))) := by norm_num
    rw [hfac] at hdvd
    have p2 : Nat.Prime 2 := Nat.prime_two
    have p3 : Nat.Prime 3 := Nat.prime_three
    have p5 : Nat.Prime 5 := by norm_num
    have p1427 : Nat.Prime 1427 := by norm_num
    have p2131 : Nat.Prime 2131 := by norm_num
    have p15331 : Nat.Prime 15331 := by norm_num
    have hqe : q = 2 ∨ q = 3 ∨ q = 5 ∨ q = 1427 ∨ q = 2131 ∨ q = 15331 := by
      rcases (hq.dvd_mul).mp hdvd with h | hrest
      · exact Or.inl ((Nat.prime_dvd_prime_iff_eq hq p2).mp h)
      rcases (hq.dvd_mul).mp hrest with h | hrest
      · exact Or.inl ((Nat.prime_dvd_prime_iff_eq hq p2).mp h)
      rcases (hq.dvd_mul).mp hrest with h | hrest
      · exact Or.inl ((Nat.prime_dvd_prime_iff_eq hq p2).mp h)
      rcases (hq.dvd_mul).mp hrest with h | hrest
      · exact Or.inr (Or.inl ((Nat.prime_dvd_prime_iff_eq hq p3).mp h))
      rcases (hq.dvd_mul).mp hrest with h | hrest
      · exact Or.inr (Or.inr (Or.inl ((Nat.prime_dvd_prime_iff_eq hq p5).mp h)))
      rcases (hq.dvd_mul).mp hrest with h | hrest
      · exact Or.inr (Or.inr (Or.inr (Or.inl
          ((Nat.prime_dvd_prime_iff_eq hq p1427).mp h))))
      rcases (hq.dvd_mul).mp hrest with h | h
      · exact Or.inr (Or.inr (Or.inr (Or.inr (Or.inl
          ((Nat.prime_dvd_prime_iff_eq hq p2131).mp h)))))
      · exact Or.inr (Or.inr (Or.inr (Or.inr (Or.inr
          ((Nat.prime_dvd_prime_iff_eq hq p15331).mp h)))))
    rcases hqe with rfl | rfl | rfl | rfl | rfl | rfl
    · rw [show (5594472617641 - 1 : Nat) / 2 = 2797236308820 by norm_num]
      exact zmod_pow_ne_one _ _ _ 5594472617640 (by decide) (by norm_num) (by decide)
    · rw [show (5594472617641 - 1 : Nat) / 3 = 1864824205880 by norm_num]
      exact zmod_pow_ne_one _ _ _ 633520002390 (by decide) (by norm_num) (by decide)
    · rw [show (5594472617641 - 1 : Nat) / 5 = 1118894523528 by norm_num]
      exact zmod_pow_ne_one _ _ _ 5539104407118 (by decide) (by norm_num) (by decide)
    · rw [show (5594472617641 - 1 : Nat) / 1427 = 3920443320 by norm_num]
      exact zmod_pow_ne_one _ _ _ 693744849281 (by decide) (by norm_num) (by decide)
    · rw [show (5594472617641 - 1 : Nat) / 2131 = 2625280440 by norm_num]
      exact zmod_pow_ne_one _ _ _ 2614630137118 (by decide) (by norm_num) (by decide)
    · rw [show (5594472617641 - 1 : Nat) / 15331 = 364912440 by norm_num]
      exact zmod_pow_ne_one _ _ _ 4170830691369 (by decide) (by norm_num) (by decide)

/-- Lucas certificate for `2 ^ 64 - 59`, the largest 64-bit prime. -/
lemma prime_18446744073709551557 : Nat.Prime 18446744073709551557 := by
  apply lucas_primality 18446744073709551557 ((2 : ℕ) : ZMod 18446744073709551557)
  · exact zmod_pow_eq_one _ _ _ (by decide) (by norm_num)
  · intro q hq hdvd
    have hfac : (18446744073709551557 - 1 : Nat) =
        2 * (2 * (11 * (137 * (547 * 5594472617641)))) := by norm_num
    rw [hfac] at hdvd
    have p2 : Nat.Prime 2 := Nat.prime_two
    have p11 : Nat.Prime 11 := by norm_num
    have p137 : Nat.Prime 137 := by norm_num
    have p547 : Nat.Prime 547 := by norm_num
    have hqe : q = 2 ∨ q = 11 ∨ q = 137 ∨ q = 547 ∨ q = 5594472617641 := by
      rcases (hq.dvd_mul).mp hdvd with h | hrest
      · exact Or.inl ((Nat.prime_dvd_prime_iff_eq hq p2).mp h)
      rcases (hq.dvd_mul).mp hrest with h | hrest
      · exact Or.inl ((Nat.prime_dvd_prime_iff_eq hq p2).mp h)
      rcases (hq.dvd_mul).mp hrest with h | hrest
      · exact Or.inr (Or.inl ((Nat.prime_dvd_prime_iff_eq hq p11).mp h))
      rcases (hq.dvd_mul).mp hrest with h | hrest
      · exact Or.inr (Or.inr (Or.inl ((Nat.prime_dvd_prime_iff_eq hq p137).mp h)))
      rcases (hq.dvd_mul).mp hrest with h | h
      · exact Or.inr (Or.inr (Or.inr (Or.inl
          ((Nat.prime_dvd_prime_iff_eq hq p547).mp h))))
      · exact Or.inr (Or.inr (Or.inr (Or.inr
          ((Nat.prime_dvd_prime_iff_eq hq prime_5594472617641).mp h))))
    rcases hqe with rfl | rfl | rfl | rfl | rfl
    · rw [show (18446744073709551557 - 1 : Nat) / 2 = 9223372036854775778 by norm_num]
      exact zmod_pow_ne_one _ _ _ 18446744073709551556 (by decide) (by norm_num)
        (by decide)
    · rw [show (18446744073709551557 - 1 : Nat) / 11 = 1676976733973595596 by norm_num]
      exact zmod_pow_ne_one _ _ _ 7233656613878036887 (by decide) (by norm_num)
        (by decide)
    · rw [show (18446744073709551557 - 1 : Nat) / 137 = 134647766961383588 by norm_num]
      exact zmod_pow_ne_one _ _ _ 808296807897363856 (by decide) (by norm_num)
        (by decide)
    · rw [show (18446744073709551557 - 1 : Nat) / 547 = 33723480939139948 by norm_num]
      exact zmod_pow_ne_one _ _ _ 16285151747536493802 (by decide) (by norm_num)
        (by decide)
    · rw [show (18446744073709551557 - 1 : Nat) / 5594472617641 = 3297316 by norm_num]
      exact zmod_pow_ne_one _ _ _ 11493017446059487016 (by decide) (by norm_num)
        (by decide)

/-! ### Behaviour of the generator scan loop -/

lemma nextLoop_step (fuel number : Nat) :
    nextLoop (fuel + 1) number =
      if U64 ≤ number + 1 then none
      else
        match is_prime (number + 1) with
        | none => none
        | some true => some (number + 1)
        | some false => nextLoop fuel (number + 1) := rfl

lemma is_prime_true_of_prime {p : Nat} (hp : Nat.Prime p) (hN : p < N0) :
    is_prime p = some true := by
  obtain ⟨b, hb, hiff⟩ := is_prime_correct p hN
  rw [hb, hiff.mpr hp]

lemma is_prime_false_of_not_prime {m : Nat} (hm : ¬ Nat.Prime m) (hN : m < N0) :
    is_prime m = some false := by
  obtain ⟨b, hb, hiff⟩ := is_prime_correct m hN
  have hbf : b = false := by
    cases b
    · rfl
    · exact absurd (hiff.mp rfl) hm
  rw [hb, hbf]

/-- Whatever value the scan loop returns is the first value above the
cursor that `is_prime` accepts, and every number strictly in between was
tested and rejected. -/
lemma nextLoop_sound : ∀ fuel s v, nextLoop fuel s = some v →
    s < v ∧ v < U64 ∧ is_prime v = some true ∧
      ∀ m, s < m → m < v → is_prime m = some false := by
  intro fuel
  induction fuel with
  | zero => intro s v h; cases h
  | succ fuel ih =>
    intro s v h
    rw [nextLoop_step] at h
    by_cases hcur : U64 ≤ s + 1
    · rw [if_pos hcur] at h; cases h
    · rw [if_neg hcur] at h
      rcases hip : is_prime (s + 1) with _ | b
      · rw [hip] at h; cases h
      · rcases b with _ | _
        · rw [hip] at h
          obtain ⟨h1, h2, h3, h4⟩ := ih (s + 1) v h
          refine ⟨by omega, h2, h3, fun m hm1 hm2 => ?_⟩
          rcases Nat.lt_or_ge m (s + 2) with hm | hm
          · have : m = s + 1 := by omega
            rw [this]; exact hip
          · exact h4 m (by omega) hm2
        · rw [hip] at h
          have hv : v = s + 1 := by
            injection h with h; omega
          subst hv
          exact ⟨by omega, by omega, hip, fun m hm1 hm2 => by omega⟩

/-- If `p` is the first prime above the cursor and lies in the
overflow-free range, the scan loop finds exactly `p`. -/
lemma nextLoop_complete {p : Nat} (hp : Nat.Prime p) (hpN : p < N0) :
    ∀ fuel s, s < p → p - s ≤ fuel →
      (∀ m, s < m → m < p → ¬ Nat.Prime m) →
      nextLoop fuel s = some p := by
  have hN0 : N0 = 18446744030759878681 := rfl
  have hU : U64 = 18446744073709551616 := rfl
  intro fuel
  induction fuel with
  | zero => intro s h1 h2 _; omega
  | succ fuel ih =>
    intro s hsp hfuel hgap
    rw [nextLoop_step]
    rw [if_neg (show ¬ U64 ≤ s + 1 by omega)]
    by_cases hep : s + 1 = p
    · rw [hep, is_prime_true_of_prime hp hpN]
    · have hnp : ¬ Nat.Prime (s + 1) := hgap (s + 1) (by omega) (by omega)
      rw [is_prime_false_of_not_prime hnp (by omega)]
      exact ih (s + 1) (by omega) (by omega)
        (fun m h1 h2 => hgap m (by omega) h2)

/-- Characterization of a normally returning call to `next`: the Rust
return value is `Some v` where `v` is the first accepted value above
the cursor, and the new cursor is `v`. -/
lemma next_char {s : PrimeIterator} {r : Option Nat} {s1 : PrimeIterator}
    (h : s.next = some (r, s1)) :
    ∃ v, r = some v ∧ s1 = ⟨v⟩ ∧ s.number < v ∧ v < U64 ∧
      is_prime v = some true ∧
      ∀ m, s.number < m → m < v → is_prime m = some false := by
  unfold PrimeIterator.next at h
  rcases hv : nextLoop nextFuel s.number with _ | v
  · rw [hv] at h; cases h
  · rw [hv] at h
    simp only [Option.map_some'] at h
    obtain ⟨h1, h2, h3, h4⟩ := nextLoop_sound nextFuel s.number v hv
    injection h with h
    injection h with hr hs
    exact ⟨v, hr.symm, hs.symm, h1, h2, h3, h4⟩

/-- A call to `next` from cursor `s` finds the first prime `p` above
`s`, provided `p` lies in the overflow-free range. -/
lemma next_finds {s p : Nat} (hp : Nat.Prime p) (hpN : p < N0) (hsp : s < p)
    (hgap : ∀ m, s < m → m < p → ¬ Nat.Prime m) :
    PrimeIterator.next ⟨s⟩ = some (some p, ⟨p⟩) := by
  have hN0 : N0 = 18446744030759878681 := rfl
  have hU : U64 = 18446744073709551616 := rfl
  have hfuel : p - s ≤ nextFuel := by
    have : nextFuel = U64 := rfl
    omega
  unfold PrimeIterator.next
  rw [nextLoop_complete hp hpN nextFuel s hsp hfuel hgap]
  rfl

lemma genState_succ (k : Nat) :
    genState (k + 1) =
      match genState k with
      | none => none
      | some s =>
        match s.next with
        | none => none
        | some (_, s1) => some s1 := rfl

lemma nth_prime_zero : Nat.nth Nat.Prime 0 = 2 := by
  have h := Nat.nth_count Nat.prime_two
  have hc : Nat.count Nat.Prime 2 = 0 := by
    simp [Nat.count_succ, Nat.not_prime_zero, Nat.not_prime_one]
  rwa [hc] at h

lemma no_prime_between (k : Nat) :
    ∀ m, Nat.nth Nat.Prime k < m → m < Nat.nth Nat.Prime (k + 1) →
      ¬ Nat.Prime m := by
  intro m h1 h2 hm
  have hinf : (setOf Nat.Prime).Infinite := Nat.infinite_setOf_prime
  have he : Nat.nth Nat.Prime (Nat.count Nat.Prime m) = m := Nat.nth_count hm
  have hj1 : k < Nat.count Nat.Prime m :=
    (Nat.nth_lt_nth hinf).mp (by rw [he]; exact h1)
  have hj2 : Nat.count Nat.Prime m < k + 1 :=
    (Nat.nth_lt_nth hinf).mp (by rw [he]; exact h2)
  omega

/-- After `k + 1` successful calls on a fresh generator, the cursor
sits at the `(k+1)`-st prime (0-indexed `nth`). -/
lemma genState_eq : ∀ k, Nat.nth Nat.Prime k < N0 →
    genState (k + 1) = some ⟨Nat.nth Nat.Prime k⟩ := by
  have hinf : (setOf Nat.Prime).Infinite := Nat.infinite_setOf_prime
  intro k
  induction k with
  | zero =>
    intro hk
    rw [genState_succ, show genState 0 = some ⟨1⟩ from rfl]
    rw [nth_prime_zero] at hk ⊢
    dsimp only
    rw [show PrimeIterator.next ⟨1⟩ = some (some 2, ⟨2⟩) from
      next_finds Nat.prime_two hk (by omega) (fun m h1 h2 => by omega)]
  | succ k ih =>
    intro hk
    have hmono : Nat.nth Nat.Prime k < Nat.nth Nat.Prime (k + 1) :=
      (Nat.nth_lt_nth hinf).mpr (by omega)
    have hkN : Nat.nth Nat.Prime k < N0 := lt_trans hmono hk
    rw [genState_succ, ih hkN]
    dsimp only
    rw [show PrimeIterator.next ⟨Nat.nth Nat.Prime k⟩ =
        some (some (Nat.nth Nat.Prime (k + 1)), ⟨Nat.nth Nat.Prime (k + 1)⟩) from
      next_finds (Nat.nth_mem_of_infinite hinf (k + 1)) hk hmono
        (no_prime_between k)]

/-- The `(k+1)`-st call on a fresh generator returns the `(k+1)`-st
prime, as long as that prime lies in the overflow-free range. -/
lemma output_eq : ∀ k, Nat.nth Nat.Prime k < N0 →
    output k = some (some (Nat.nth Nat.Prime k)) := by
  have hinf : (setOf Nat.Prime).Infinite := Nat.infinite_setOf_prime
  intro k
  cases k with
  | zero =>
    intro hk
    unfold output
    rw [show genState 0 = some ⟨1⟩ from rfl, nth_prime_zero] at *
    dsimp only
    rw [show PrimeIterator.next ⟨1⟩ = some (some 2, ⟨2⟩) from
      next_finds Nat.prime_two hk (by omega) (fun m h1 h2 => by omega)]
  | succ k =>
    intro hk
    have hmono : Nat.nth Nat.Prime k < Nat.nth Nat.Prime (k + 1) :=
      (Nat.nth_lt_nth hinf).mpr (by omega)
    have hkN : Nat.nth Nat.Prime k < N0 := lt_trans hmono hk
    unfold output
    rw [genState_eq k hkN]
    dsimp only
    rw [show PrimeIterator.next ⟨Nat.nth Nat.Prime k⟩ =
        some (some (Nat.nth Nat.Prime (k + 1)), ⟨Nat.nth Nat.Prime (k + 1)⟩) from
      next_finds (Nat.nth_mem_of_infinite hinf (k + 1)) hk hmono
        (no_prime_between k)]

/-- Every value the generator ever returns is below `2 ^ 64`. -/
lemma output_lt {k v : Nat} (h : output k = some (some v)) : v < U64 := by
  unfold output at h
  rcases hg : genState k with _ | s
  · rw [hg] at h; cases h
  · rw [hg] at h
    dsimp only at h
    rcases hn : s.next with _ | rs
    · rw [hn] at h; cases h
    · obtain ⟨r1, s1⟩ := rs
      rw [hn] at h
      dsimp only at h
      obtain ⟨w, hw, _, _, hwU, _, _⟩ := next_char hn
      injection h with h
      rw [hw] at h
      injection h with h
      omega

/-- A successful output pins down the next generator state: the
cursor moves to the returned value. -/
lemma output_state {k v : Nat} (h : output k = some (some v)) :
    genState (k + 1) = some ⟨v⟩ := by
  unfold output at h
  rcases hg : genState k with _ | s
  · rw [hg] at h; cases h
  · rw [hg] at h
    dsimp only at h
    rcases hn : s.next with _ | rs
    · rw [hn] at h; cases h
    · obtain ⟨r1, s1⟩ := rs
      rw [hn] at h
      dsimp only at h
      obtain ⟨w, hw, hs1, _, _, _, _⟩ := next_char hn
      rw [genState_succ, hg]
      dsimp only
      rw [hn]
      injection h with h
      rw [hw] at h
      injection h with h
      subst h
      rw [hs1]

/-- Consecutive successful outputs are strictly increasing. -/
lemma output_succ_gt {k v w : Nat} (h1 : output k = some (some v))
    (h2 : output (k + 1) = some (some w)) : v < w := by
  have hst := output_state h1
  unfold output at h2
  rw [hst] at h2
  dsimp only at h2
  rcases hn : PrimeIterator.next ⟨v⟩ with _ | rs
  · rw [hn] at h2; cases h2
  · obtain ⟨r1, s1⟩ := rs
    rw [hn] at h2
    dsimp only at h2
    obtain ⟨u, hu, _, hlt, _, _, _⟩ := next_char hn
    injection h2 with h2
    rw [hu] at h2
    injection h2 with h2
    subst h2
    exact hlt

/-! ### A verified bitmask sieve up to 104728

Proof infrastructure used to compute that 104729 is the 10000th prime.
All constructions halve their size argument, so the kernel evaluates
them in logarithmic depth with big-integer arithmetic doing the bulk
of the work. -/

/-- Doubling step: `dbl d x` is `x ||| (x <<< d)`, with `x` forced to a
numeral first so kernel evaluation shares the evaluated value. -/
def dbl (d x : Nat) : Nat :=
  match x with
  | 0 => 0
  | m + 1 => (m + 1) ||| ((m + 1) <<< d)

lemma one_shiftLeft_eq (s : Nat) : (1 <<< s : Nat) = 2 ^ s := by
  rw [Nat.shiftLeft_eq, Nat.one_mul]

lemma dbl_testBit (d x k : Nat) :
    (dbl d x).testBit k =
      (x.testBit k || (decide (k ≥ d) && x.testBit (k - d))) := by
  cases x with
  | zero => simp [dbl]
  | succ m =>
    rw [show dbl d (m + 1) = (m + 1) ||| ((m + 1) <<< d) from rfl,
      Nat.testBit_or, Nat.testBit_shiftLeft]

/-- Bitmask with `c` bits at positions `s, s + t, …, s + t * (c - 1)`,
built by doubling (`f` is fuel; `c ≤ 2 ^ f` makes it exact). -/
def pmask : Nat → Nat → Nat → Nat → Nat
  | 0, s, _, c => if c = 0 then 0 else 1 <<< s
  | f + 1, s, t, c =>
    if c = 0 then 0
    else if c = 1 then 1 <<< s
    else
      let b := dbl (t * (c / 2)) (pmask f s t (c / 2))
      if c % 2 = 0 then b else b ||| (1 <<< (s + t * (c - 1)))

lemma pmask_step (f s t c : Nat) :
    pmask (f + 1) s t c =
      if c = 0 then 0
      else if c = 1 then 1 <<< s
      else if c % 2 = 0 then dbl (t * (c / 2)) (pmask f s t (c / 2))
      else dbl (t * (c / 2)) (pmask f s t (c / 2)) ||| (1 <<< (s + t * (c - 1))) := rfl

lemma pmask_one (f s t : Nat) : pmask f s t 1 = 2 ^ s := by
  rw [← one_shiftLeft_eq]
  cases f with
  | zero => simp [pmask]
  | succ f => rw [pmask_step]; norm_num

lemma pmask_testBit : ∀ f s t c, c ≤ 2 ^ f →
    ∀ k, (pmask f s t c).testBit k = true ↔ ∃ j, j < c ∧ k = s + t * j := by
  intro f
  induction f with
  | zero =>
    intro s t c hc k
    have hc1 : c = 0 ∨ c = 1 := by
      rw [pow_zero] at hc; omega
    rcases hc1 with rfl | rfl
    · simp [pmask]
    · simp only [pmask, if_neg (by norm_num : (1 : Nat) ≠ 0)]
      rw [one_shiftLeft_eq, Nat.testBit_two_pow]
      constructor
      · intro h
        exact ⟨0, by omega, by simpa using (of_decide_eq_true h).symm⟩
      · rintro ⟨j, hj, rfl⟩
        have : j = 0 := by omega
        subst this
        simp
  | succ f ih =>
    intro s t c hc k
    by_cases hc0 : c = 0
    · subst hc0; simp [pmask]
    by_cases hc1 : c = 1
    · subst hc1
      rw [pmask_one, Nat.testBit_two_pow]
      constructor
      · intro h
        exact ⟨0, by omega, by simpa using (of_decide_eq_true h).symm⟩
      · rintro ⟨j, hj, rfl⟩
        have : j = 0 := by omega
        subst this
        simp
    · have hpow : 2 ^ (f + 1) = 2 ^ f * 2 := pow_succ 2 f
      have hlow : c / 2 ≤ 2 ^ f := by omega
      have hmain : ∀ k, (dbl (t * (c / 2)) (pmask f s t (c / 2))).testBit k = true ↔
          ∃ j, j < 2 * (c / 2) ∧ k = s + t * j := by
        intro k
        rw [dbl_testBit, Bool.or_eq_true, ih s t (c / 2) hlow k]
        constructor
        · rintro (⟨j, hj, rfl⟩ | hhi)
          · exact ⟨j, by omega, rfl⟩
          · simp only [Bool.and_eq_true, decide_eq_true_eq] at hhi
            obtain ⟨hge, hbit⟩ := hhi
            obtain ⟨j, hj, hq⟩ := (ih s t (c / 2) hlow (k - t * (c / 2))).mp hbit
            refine ⟨c / 2 + j, by omega, ?_⟩
            rw [Nat.mul_add]
            omega
        · rintro ⟨j, hj, rfl⟩
          by_cases hjl : j < c / 2
          · exact Or.inl ⟨j, hjl, rfl⟩
          · right
            simp only [Bool.and_eq_true, decide_eq_true_eq]
            have hge : t * (c / 2) ≤ t * j := Nat.mul_le_mul (le_refl t) (by omega)
            refine ⟨by omega, ?_⟩
            rw [show s + t * j - t * (c / 2) = s + t * (j - c / 2) by
              rw [Nat.mul_sub_left_distrib]; omega]
            exact (ih s t (c / 2) hlow _).mpr ⟨j - c / 2, by omega, rfl⟩
      rw [pmask_step, if_neg hc0, if_neg hc1]
      by_cases hpar : c % 2 = 0
      · rw [if_pos hpar, hmain k]
        constructor
        · rintro ⟨j, hj, rfl⟩; exact ⟨j, by omega, rfl⟩
        · rintro ⟨j, hj, rfl⟩; exact ⟨j, by omega, rfl⟩
      · rw [if_neg hpar, Nat.testBit_or, Bool.or_eq_true, hmain k,
          one_shiftLeft_eq, Nat.testBit_two_pow]
        constructor
        · rintro (⟨j, hj, rfl⟩ | hb)
          · exact ⟨j, by omega, rfl⟩
          · exact ⟨c - 1, by omega, (of_decide_eq_true hb).symm⟩
        · rintro ⟨j, hj, rfl⟩
          by_cases hj2 : j < 2 * (c / 2)
          · exact Or.inl ⟨j, hj2, rfl⟩
          · have : j = c - 1 := by omega
            subst this
            right
            simp

/-- The primes up to 323 (all possible least prime factors of a
composite number up to 104728). -/
def sieveP : List Nat :=
  [2, 3, 5, 7, 11, 13, 17, 19, 23, 29, 31, 37, 41, 43, 47, 53, 59, 61,
   67, 71, 73, 79, 83, 89, 97, 101, 103, 107, 109, 113, 127, 131, 137,
   139, 149, 151, 157, 163, 167, 173, 179, 181, 191, 193, 197, 199,
   211, 223, 227, 229, 233, 239, 241, 251, 257, 263, 269, 271, 277,
   281, 283, 293, 307, 311, 313, 317]

/-- Number of multiples of `p` in `[p * p, 104728]`. -/
def cnt (p : Nat) : Nat := (104728 - p * p) / p + 1

def maskFold : List Nat → Nat
  | [] => 0
  | p :: L => pmask 20 (p * p) p (cnt p) ||| maskFold L

/-- Composite mask: bit `n` is set exactly for the composites
`4 ≤ n ≤ 104728`. -/
def sieve : Nat := maskFold sieveP

lemma maskFold_testBit : ∀ L : List Nat, (∀ p ∈ L, cnt p ≤ 2 ^ 20) →
    ∀ k, (maskFold L).testBit k = true ↔
      ∃ p ∈ L, ∃ j, j < cnt p ∧ k = p * p + p * j := by
  intro L
  induction L with
  | nil => intro _ k; simp [maskFold]
  | cons p L ih =>
    intro hL k
    rw [show maskFold (p :: L) = pmask 20 (p * p) p (cnt p) ||| maskFold L from rfl]
    rw [Nat.testBit_or, Bool.or_eq_true,
      pmask_testBit 20 (p * p) p (cnt p) (hL p (by simp)) k,
      ih (fun q hq => hL q (by simp [hq])) k]
    constructor
    · rintro (⟨j, hj, rfl⟩ | ⟨q, hq, j, hj, rfl⟩)
      · exact ⟨p, by simp, j, hj, rfl⟩
      · exact ⟨q, by simp [hq], j, hj, rfl⟩
    · rintro ⟨q, hq, j, hj, rfl⟩
      rcases List.mem_cons.mp hq with rfl | hq
      · exact Or.inl ⟨j, hj, rfl⟩
      · exact Or.inr ⟨q, hq, j, hj, rfl⟩

lemma sieveP_facts : ∀ p ∈ sieveP, 2 ≤ p ∧ p * p ≤ 104728 ∧ cnt p ≤ 2 ^ 20 := by
  decide

/-- Every number up to 323 that the (verified) tester accepts is in
the sieve prime list. -/
lemma sieveP_mem : ∀ q, q < 324 → is_prime q = some true → q ∈ sieveP := by
  decide

lemma sieve_testBit (k : Nat) :
    sieve.testBit k = true ↔
      ∃ p ∈ sieveP, ∃ j, j < cnt p ∧ k = p * p + p * j :=
  maskFold_testBit sieveP (fun p hp => (sieveP_facts p hp).2.2) k

/-- A set sieve bit marks a composite of size at least 4. -/
lemma sieve_bit_imp {n : Nat} (hbit : sieve.testBit n = true) :
    ¬ Nat.Prime n ∧ 4 ≤ n := by
  obtain ⟨p, hp, j, hj, rfl⟩ := (sieve_testBit _).mp hbit
  obtain ⟨hp2, hpsq, _⟩ := sieveP_facts p hp
  have hn : p * p + p * j = p * (p + j) := by rw [Nat.mul_add]
  constructor
  · rw [hn]
    refine not_prime_of_proper_divisor hp2 ?_ ⟨p + j, rfl⟩
    calc p = p * 1 := by rw [Nat.mul_one]
      _ < p * (p + j) := by nlinarith
  · calc (4 : Nat) = 2 * 2 := by norm_num
      _ ≤ p * (p + j) := Nat.mul_le_mul hp2 (by omega)
      _ = p * p + p * j := by rw [Nat.mul_add]

/-- Every composite `2 ≤ n ≤ 104728` has its sieve bit set. -/
lemma sieve_bit_of_composite {n : Nat} (h2 : 2 ≤ n) (hn : n ≤ 104728)
    (hnp : ¬ Nat.Prime n) : sieve.testBit n = true := by
  set p := Nat.minFac n with hpdef
  have hn1 : n ≠ 1 := by omega
  have hp : p.Prime := Nat.minFac_prime hn1
  have hp2 : 2 ≤ p := hp.two_le
  have hdvd : p ∣ n := Nat.minFac_dvd n
  have hsq : p * p ≤ n := by
    have := Nat.minFac_sq_le_self (by omega : 0 < n) hnp
    simpa [Nat.pow_two] using this
  have hp324 : p < 324 := by
    by_contra hcon
    push_neg at hcon
    have : 324 * 324 ≤ p * p := Nat.mul_le_mul hcon hcon
    omega
  have hmem : p ∈ sieveP :=
    sieveP_mem p hp324 (is_prime_true_of_prime hp (by
      have : N0 = 18446744030759878681 := rfl
      omega))
  have hple : p ≤ n / p := Nat.le_div_iff_mul_le (by omega) |>.mpr hsq
  have hrec : p * (n / p) = n := Nat.mul_div_cancel' hdvd
  rw [sieve_testBit]
  refine ⟨p, hmem, n / p - p, ?_, ?_⟩
  · -- j < cnt p
    have hjmul : p * (n / p - p) = n - p * p := by
      rw [Nat.mul_sub, hrec]
    have hle : (n / p - p) * p ≤ 104728 - p * p := by
      rw [Nat.mul_comm, hjmul]; omega
    have := (Nat.le_div_iff_mul_le (show 0 < p by omega)).mpr hle
    have hcnt : cnt p = (104728 - p * p) / p + 1 := rfl
    omega
  · rw [Nat.mul_sub, hrec]
    omega

/-! ### Counting bits -/

/-- Number of set bits below `w` (specification; linear recursion). -/
def bitcnt : Nat → Nat → Nat
  | 0, _ => 0
  | w + 1, x => bitcnt w x + (if x.testBit w then 1 else 0)

/-- Number of set bits below `w`, computed by halving down to 64-bit
leaves so the kernel handles large `w` (fuel `f`; exact for every `f`
and `w` with `w / 64 ≤ 2 ^ f`).  The two halves are forced to numerals
by the match, so kernel evaluation shares them. -/
def popcount : Nat → Nat → Nat → Nat
  | 0, w, x => bitcnt w x
  | f + 1, w, x =>
    if w ≤ 64 then bitcnt w x
    else
      match x % (1 <<< (w / 2)), x >>> (w / 2) with
      | 0, 0 => 0
      | 0, hi + 1 => popcount f (w - w / 2) (hi + 1)
      | lo + 1, 0 => popcount f (w / 2) (lo + 1)
      | lo + 1, hi + 1 => popcount f (w / 2) (lo + 1) + popcount f (w - w / 2) (hi + 1)

lemma popcount_step (f w x : Nat) :
    popcount (f + 1) w x =
      if w ≤ 64 then bitcnt w x
      else
        match x % (1 <<< (w / 2)), x >>> (w / 2) with
        | 0, 0 => 0
        | 0, hi + 1 => popcount f (w - w / 2) (hi + 1)
        | lo + 1, 0 => popcount f (w / 2) (lo + 1)
        | lo + 1, hi + 1 =>
          popcount f (w / 2) (lo + 1) + popcount f (w - w / 2) (hi + 1) := rfl

lemma bitcnt_zero : ∀ w, bitcnt w 0 = 0 := by
  intro w
  induction w with
  | zero => rfl
  | succ w ih => simp [bitcnt, ih]

lemma bitcnt_step (w x : Nat) :
    bitcnt (w + 1) x = bitcnt w x + (if x.testBit w then 1 else 0) := rfl

lemma bitcnt_congr : ∀ w x y, (∀ i, i < w → x.testBit i = y.testBit i) →
    bitcnt w x = bitcnt w y := by
  intro w
  induction w with
  | zero => intro x y _; rfl
  | succ w ih =>
    intro x y h
    show bitcnt w x + _ = bitcnt w y + _
    rw [ih x y (fun i hi => h i (by omega)), h w (by omega)]

lemma bitcnt_one (x : Nat) : bitcnt 1 x = x % 2 := by
  show 0 + (if x.testBit 0 then 1 else 0) = x % 2
  rw [Nat.testBit_zero]
  rcases Nat.mod_two_eq_zero_or_one x with h | h <;> simp [h]

lemma bitcnt_add : ∀ b a x, bitcnt (a + b) x = bitcnt a x + bitcnt b (x / 2 ^ a) := by
  intro b
  induction b with
  | zero => intro a x; rfl
  | succ b ih =>
    intro a x
    rw [show a + (b + 1) = (a + b) + 1 by omega, bitcnt_step, bitcnt_step, ih a x,
      show x.testBit (a + b) = (x / 2 ^ a).testBit b by
        rw [← Nat.shiftRight_eq_div_pow, Nat.testBit_shiftRight],
      Nat.add_assoc]

lemma popcount_eq : ∀ f w x, popcount f w x = bitcnt w x := by
  intro f
  induction f with
  | zero => intro w x; rfl
  | succ f ih =>
    intro w x
    by_cases hw64 : w ≤ 64
    · rw [popcount_step, if_pos hw64]
    · have hkey : bitcnt w x = bitcnt (w / 2) (x % (1 <<< (w / 2))) +
          bitcnt (w - w / 2) (x >>> (w / 2)) := by
        rw [one_shiftLeft_eq, Nat.shiftRight_eq_div_pow]
        rw [bitcnt_congr (w / 2) (x % 2 ^ (w / 2)) x
          (fun i hi => by simp [Nat.testBit_mod_two_pow, hi])]
        rw [← bitcnt_add, show w / 2 + (w - w / 2) = w by omega]
      rw [popcount_step, if_neg hw64]
      rcases hlo : x % (1 <<< (w / 2)) with _ | lo <;>
        rcases hhi : x >>> (w / 2) with _ | hi <;>
        rw [hlo, hhi] at hkey <;>
        dsimp only
      · rw [bitcnt_zero, bitcnt_zero] at hkey
        omega
      · rw [bitcnt_zero] at hkey
        rw [ih (w - w / 2) (hi + 1)]
        omega
      · rw [bitcnt_zero] at hkey
        rw [ih (w / 2) (lo + 1)]
        omega
      · rw [ih (w / 2) (lo + 1), ih (w - w / 2) (hi + 1)]
        omega

lemma bitcnt_card : ∀ w x,
    bitcnt w x = ((Finset.range w).filter (fun i => x.testBit i = true)).card := by
  intro w
  induction w with
  | zero => intro x; simp [bitcnt]
  | succ w ih =>
    intro x
    rw [bitcnt_step, Finset.range_succ, Finset.filter_insert, ih x]
    by_cases hb : x.testBit w = true
    · have hnotmem : w ∉ (Finset.range w).filter (fun i => x.testBit i = true) :=
        fun hmem => Nat.lt_irrefl w (Finset.mem_range.mp (Finset.filter_subset _ _ hmem))
      simp [hb, Finset.card_insert_of_not_mem hnotmem]
    · simp [hb]

/-- Mask of the primes below 104729: complement of the sieve (and of
bits 0 and 1) within width 104729. -/
def primeMask : Nat := ((1 <<< 104729) - 1) ^^^ (sieve ||| 3)

/-- Numeric value of `primeMask`, pinned as a literal so that kernel
evaluation of the popcount shares one already-evaluated numeral
instead of re-evaluating the mask construction at every leaf. -/
def primeMaskLit : Nat := 5903102339929218946353951087251570706320131792418039402171943477686964484303827390740854724679416267729835867886243652094186630586397781160958859636463426440912352372314683465859210791728096376321541398413070070801301962212367867875965098204790937647972924881639751539972370005975839299520734024013685795666882340046246458678422259550537164597829359096261456137062678300002153137764487250666632455116088116811425086808779286345791469265920096073063566661764627492985850923860083410446342915952112472631196552717106422317846559712878648950331698137405548915124122759358327995949042633659994783245010063556939200081424614711859070166628117901381998133497049615538875762434338068677507152385210245216067040819196264737424866721011431682848609438915219897760524858066962819858858538329989575524433735999579043546581401215148682234853038058314741189631225022237795766402886460384005070759602913314578559692120286465224556740847977991882037223406044854814692783902394925668261630585220561203376659026870302262709689973420898929512418104499686137066861554200782276665711132512154702209961246205512836886416773986464182320822248546473135745623415190378806322635751631568191060980086963948877836885362590528264895658208757224042129509348804024913494094405008396568703536907734553942104816339883483423698559420796668756042084842410589908135701316281652633440767224110636177063214763853212748560172180253059454301659862883333995032918376246084110931761102513148066951201299752335154495896205939595526471687171805262675927575167992068644109940403701488254047628578966200171979751348278941881970779585781539374851497513831326055127120740415406573293549965166289688893302061356478838882976482376624574252926649974689509140308624189438522763553784655801173240741043797499984576013307374548412398700412825997014785457907915814053091902039406706273457704178968971955830595134530030088691963731915626272545816055796556279065770316541224856849557663809156891806384331977746579497093975187106137868348187096375934582661950497558503520549967417557468585171036837809982498563508932246945618285821797363917960538013149538600518190680729896210421583462952317313748843245224333050840812348247210295156596354966763962837094962332737260111461849612785624821931706412511070984239756892077768637375916853658249090348925607647734916691540749231669961216388794860057223506569992236426012792595269692401490573141146028519360664347440673967043125725210339327654053722469633974609411929254922644332335796234060863221951096163660558249226668707683892521713771636872253806793179028634017791095301951889795479632181839244982723557227274950707334339273001230653674177993696704355155849356037284449009312854807187177980667882272804608174729537913666988308742735706693733820074039865686081229748359811308293036710030672267043458922904496679030935961587758421679573113523793448339780537382587429935274231881558993820854793467915673086616536518893126054573684495018048684736930310092689565792658826173022681691886539316203546718936561058601690652646588186418856393982421186758924929334951735093166106187118532806226431976222269299759246370787260366149001873277807158309045423287629091788027736338581655984662107859148310386667963006404507849867388362776668959432957734915921511031506704507168726158404474979563225913637777274991926862196457409997570870454443833192488420706914563355980435169666053574458516399558505790999993842745728234230820273227408607961158580672491677440711386886671113991525500412458182842647073607645264607504801320867276081958795348475901336884755698190362557024956491040604311393868587969598216150389362454861456477695763317421912331062038146026588873212555993198866407201849335251208275744327184161004166787475931673210396814131787274930802479218436991758434648620336622487888885328499913238956552043704730755337642406694665642731494570017981410448353953312758263680939240663377721808817356990012197805219365170002724859862487958543152202291753661591138801313428694778680900463378010265749596373356225233363212154076518320260430515793045814440089281256268180669286157314417121931243388609024112446621416064902807692686580838810067816177572248906387863151934236265244394798056855291352145263907774641855378019029755914428635139160810387132649622637621603021624192573041764792037089675874622394014511633998024142165860548500719924251266463226015849940894956216063621639719209498731635003346367777221947081992584172526306372149704874189713585703622163098487055297721900791180346503830139052590231770411199807797418504872154983996914292272875991904903235410805278229366427485597175439460152704794506877337017032580751030769895456321859847373147784686524476224638400025339080735738320588851825494536786677019770240818334193274485827479808276448322603171439318187873364880944648737912176507366967368810213690574148977492084372483129967689442631204291173459955540740615748232517829592050095632380342074079521652776517722016913227423342129719325500535264280423890953737095396768935169757896324683835854572488963381642127177436807811435245630870971169477941024153557796244658362444818780289360449396780880855381155964373917915409814208051410450969048653586679379898028873740234617819458453294726384346927533544831043462398339125541114675171084450645190146992507631435179278246289312192202706368208021646214482787739449463850054111287269013491148488057218805814923230776720128718867477167322855577557428275874770241772817290528136400939401225809013798487943558379251923065631461457818513267577449609259563983436821427905639999299680585586527336455672640449271356968534866044317942841112638552293824040858934904100112675630639185197892702866968801683861950099669389946886551440075964786504736647184213949680770685261710846177911745637624065229884695433100260620838753492292477595565058394260227372598167005188751503659959781483871580341024824899393855855199600529099153991406120063801088197738484670655116507682577887729828246017767428333795416348536536227700929579937971045865034298873122880943203478247339344597102053439950189479154141391260357479189317162829951229504988993133908199866335780335387523774527022802353037561945410576308111712032003911663364412937573928805395515168062753252600419079015029715349045810341337626087275160442594993550249577249456815588273911595355450997642317026620039326406341918060477119669124369828608772817914941126052303420094573367130720628927622613631964543970714250559792901060043330122188432411594329509484316341860360917722047352734133132538389289454945419277227175472931474350748741338357360842410677572943128492124231701946073324639407564531779390314117786463787197292295562198335679337437033194539277432339300799301938294346085193092741214805708174184977842290089271325141295010630084570562864797489999444221048144632417213846686147233663938217229498321551797524451520836691256659934449308052855860733823862972745946404911643386520915871158008800470443110255934015892731552455607810454230737011939439288812555950361736511579461065543573528368991611024101895862754008230747092402865383988655393103040389796035963058671862800227186502004060798082860719804446727268065361814488959480391907873866262841681734873534948824286137241576868120193497278271424931243675801616092178884606968190549071394452882822717440762873971781206481927247165404406637205963184833801879316188755641672287187266427148197764363115477927924564536003281642541623117172036811841509924101133272886921057364958271517210960119405978202532838234414687092182216087408498528593088816189595523566284989217002584343311904952787806228238912669697607793585056078417633327857565490070221529447474450612609439738136783388874208015142197375731905760340973064581521692000770109396596994200113205140117826730236123247669482346427108948787139622215826342377645893653799516385146942293450689787433500408692064796751215296509198432761538964236986615401736617480836981893144809031284925427655522137387602492320604554232281502427257220803514935399554313795057772998767795453092076268341040516954493163766183713104744682837742863512914610171478426850615454701054509885327607165247465765393242780329895647500780923007728903206195590748565669937050961312291858114155989985402553417505509601100858921122014696360770164762849325600016518472948665470064686204964480561169363306752861256012967110026424396581355909244888246895738272029709856143517010436408999543318795038167069461051265315253633195543939443176690020729365216093829139068803242080980530618656909660143797119528062253318597980097069670164120942311622828081753953416844915575442880217743652877293304924340188719906045969430083398174738794001928685045059109010705301983668336750263334083217144532251232643311225524843253425585841179253001949667309334235655422922541912971411675106849789802141982933030446577510188351958841685654003347703638784562777440916314979994121995632013131101146290200456804466603083477554494525334335828069911030758653866594839939936439207514702723768480595387612061578768295962295674562290274111056402704654617066936682290080085922691065249873441183788790602386545021999411429852420363493682442803066847105307173156674145220852996837958557531376495647764011525440614759641742990106812335560584938488100857334530837247262052624418023508421599345000347157044297533969372651624113450400167838196153861424187655762103662782908026591207722588752410413297177118633465889667770656077661662776184618612898265601090842627085174470480490836163832150303228349124306235089619471883667391243987182120190665769407588071407897550012230886800694219581477423915875679218138766725634796264960146804461025296627018807706762736044384456584168910731646392364457597178874360959405583546564192338552979058615596333967388616184803765666954954596336394483942506269109172291246920898608282697453161636570186218788239579079251084023877765469880189621197364046203311123525108086634991284427704720941786871344841788733857566790947187193752456993225972666160397614727306326933686779550442065069898827805895506057773009495121865043845344861603215262250039463787136690617119356299813475431229016175958350106831076402497647680699778371434308987298251908731796578108828839616069598319519678955220206252706054120583602818036066912101156518940167575042828286686612943524659220856017386265704393102418337258447794897314539160092230681486977035937040024100126281771391021203898612823747835740937282340330162493058877123272729626551061120751149199840970611792823063747762944684521527736859315649032237815301694057935412478527555445289481319697056031407352570933420810904143131066637599246721860180973177185176877251564547603953349161655516176472564601625808593802433714112921763847773695969376521445961063262232772184597432866812280869755155386059198949340086755831687466289814285393118521762682306577065737474831482624360157774573961636460186640943866600662817767207367998181731248163545465965045785366215163275400527213136741393134935704813307761111819951957450479755980099895054791376901671133835049871725882364192603227741142239401324697109076407150019552838166738151764615565607662129876723709111547760856595607837244261726315292730133368811358589129806696101079217960507132809849653364867442812995389192604032348386770370127707688967871998177090303336765317125804525445093465357202606056069570267601575863547893803491641633818716347081083917930401307613658076809712615963613325411781399008316336017615498904667672478325387476707194033050912488544775091422294649998690752017377861408618150870365260780512725789154858659017785356431555804220670643168390462335171394395013450666551556812482453188457832833520814891672712795308539268237221214589141728187835310385038558254253504956444603395510060276381684134125133632239367375992641423320206189458789330418286809211580432033959549480315646629216379978839427448828699007153147940079140641572826188235594659585009500849382742413533409240978297110060615085496407060452694423481824860236188308053488396221374756867638195941754198609205504473393489447265883775935988769722559822083336822363902730736933938003522193666158624468127512844643537274922443150875918353179074371738480235520214192556339048693900082292435697893679038377151839456848007590209664715124815480124696942218681604305597951837312949269373617476172840462578452485708475065203547857545391543224508559874510680626169459544333645276374841126057944702103037317403263122371626291741098135485855143475894903235992001129723817378952844820778576605341797750690383055511324972478333138790861399662974118111830689693176630006373942030094239152695716938109657170458068232330381206622795901912334377277622177500291541114699740934762646915771671329082065240394323698582164495248932085520661685451716320564068429723508965205850303498916550913922553603775914839528854851079141423164337237544381539264455782876799517879793854565914206948024883177210885770758218696909641176138056608903940096197249043690188246091811639292548044122435345507204601012013529044366967824603377062713631047505570866244121153098847250503658982412511212763005847037554356288059300813104947647816680334618766308188125143826628560721281980253956713750837683220190744416493721683548301971959929150447614277998911473363397048765909901357910966220892563354507321268752231167510094494328118639067179774283794571967099609645792931156756695538363033773971671341732370343677692092982448425637063278158888339993567361315893849935645566874583364720549492317212674904910647434286042463613676443208643716849851538145701568920994721918307215818397625821354367287837062815683095290717970602369182736430260600564166273145482404288037769402946812137977482597486011295340145012853207238054686891866316025452637629689216269068975515722406798101160436532492262953452055605241039158287961341896108052267434975514584255816107920584151311556700593451698496829959957897354760161460446944283040348723239683887744277354427000854614071062024689751364549723550422607739629479306663839943897758189700636558525485528767774373374292595634305831973553266059721820962308292234214422565091199415692840866339854568684092033537575935953676918214716830439103817636742654190317386966842248599782691519823370893340337353678784465943180660116457063600459940762988142339451583356613368699683265518754575100572086536564610277186216090207504146177364151469508245711685861550124468109918737831640263149889285658458087722412259584012392279675864561647533325384162322254962789860294629052180135664355571422428013995840846551057567425744971835670238775563571465714375375532010805264211145621537237319028003471595591571710066077235988498602916732728243145202262435630485477903784158822246910333706073549415770909025526122090980650429133350236920080126686022721082507456968074132162499667199938515804792647211284554301566941556539400463356383795404834906861773524521278361312279353478632250983794509366223465317583092967288722571235623597309665456549493870954170332616004166357556826624094641907202890188613450244831814466642846433991402635376539600838006913425349582788488277705052778169448274028827982289305698741535439690532694341474519485681860571244051778368833217732829961905909561089047483485620677315114942870084029978110292573224942863055506076337306285665353926927211949963754562801069557449363534986226452967618561463277835691070806458931947316970230244544505729839737987440755645328908583425132032935270483323270299518280482685383141841036832615525154079217856280258760381594687812774296634417959480203137659315118262422498550066819898368781031750818545622698021262354988602133610949077986162766636428134210845160231629974411732003525547067905057171947401899704815037507811388677733425884466481679020619530843789748760280285124056915979291592221997485133137674371797415535198567310198646180718296073222041600134939987887919373300969810714292823176043647515411945122263654952550793633397506620750495807434108950463949981612400939885729764908039044917903699006149977229963139857124569235495097176035219303782574382279108956682616713503723424603253801632155701660627612326240666608472674530085948259451323554161038984846125892395860216906879244739285756797980584057547973619332011013625366269097512476091013069585109164382075875990084269717860486795682075340892423228713691602040958973136898316033789670430649385213213780894582677102938189104593144595963260335214805663428731698197694109057556778159874385014508147517581790788220746596805003729946437050645969037761657810005339314751919140353207001080844941429433535056161945383301088553664749688579141810508412917086539004671436113158197854869654529814919716440704032017568642151100700766677196216455423149570921249098543366758969547288484278401829567548255962266061103358428851287028367663475641075733546666512313232443275202022700001359257670892713231553772077228348473312147601085050250591283125869686452071897826390629539063893245880172996780853723517031023459576444846699802322404929610999322414068548512982399620214945563078206177390528722550582481456045082528018188112101975854041615110221830784234759171017876205188748996659430356474599326436503978655236489676597218529800090361464817539451267954220746738388620152439805514493355973895538622037016427756887428972267395093738358758445154276923049715927021243640952148305601302426303111766598710006515677356629620008240490845037672390002446531953558129913917547820487745479207765685063164826354598469195504472170472779238092206327729756511800233111499686321172898013820034930096448995610421956970227131904040108561431909164479711146605620120495738915543089244866427079517080575433017722899077417978106838835033301522857246613739722558958335898169819992426380428284257102349524903919304986954491948291117372688970707866748960325382988618762638562404381332669456134323549676954762257521754368772790333573551032920439876850634991265016190733015136514463746447219634916784460481379517173345944837435337042274930970806961425439503954756807657340084211439792944486851768651882481398611852464049644097558351436761732276483933134635773829325424155161734307914584729465144365677629819970138073084274304353960128000700716222391355286932205417194649854653048775462949259980513551322502604666823762129555619466197187279276344134753140095113654997978794846023153800772416204914358474560231049349239783294413471950380829516887643107730133851753852488949584958866115762141035586242714746466870327660442931318812552725768495287449558915020068768425193393072775743961838358119676860528414721017044933970523329937105771087882231867914602798679540869924706724202751040111802098782133097521573925810621617512838683220401935765244303854515012425734900420034242604021017107118440870385092416282671305432947474666566285897147650481259379764899157542679223294427540823339757946642408685804378898148224482530588643573171188161034213336181821504893694917069901573096723899409031249642454080142198472422923781152219809041222973687427245531542849256338712271200652924781362647981614183614553736312644811639544522598340387293736090773948712386397079401343945630368212138193171978526688599808146027362496729034884055697454378270464059283564573094276456329657669948199516157503921591025110483319672599810821429467181905636858908797680187767383851984535781258316732434365915042398171526233187417016883217922553043372161415677137011554229716533721950797436928891791495328324601871258914785223157739448508095812188154997995076524577065222064669767622524331662569336774767364292929646712799652880358345742882788137237484617911869490930372212808841285914169744263273923936188015870751179075321095267156027679356293670517808435879711192249067471932285861774227608827487567193939547895501196840189127110162997271250385955902499942247165949621357913005503746962467434783772610373221230469101667099144751251071969479133455126496788946007812452932985712516876079987644497187836697932239059671461562103570387754465496368780681411422327938522018853330176428097652340674480210152182864558800086608497466028380875968013747573342293321967866184780595108490012821135686764142812739967837815136866222494780707592256757569987544802862468748133832235321277155000594408005922572160181563051268384783404683217212749077908168515913463054575714742663299109706829459462560901676354668631947855872849139567121651178150837770826279808333872121942529996083712768893869928356664231428871947302989583968029551960113166492019955424043675893423305400575862102455411670733249457827909456943231665207824716017261630227386636304208503829136349059398759289433057394129754827765887298575424776176977858774403771177413487257400105069287310405717447023931503872062201305325570377433805096709464119054691072335357677698152169146390985401395353313143849422078094029839129819381469884930942022478852515856235000618565628130495509446542786395831780274882066128811833691578588538819614325531610016738493333024291008873403037498291579837494812741858647513667709163714313478619016591050075703821926759639778004017806308997028203261086008371742457797494982011628259813271302786557846919695580132839152472342663292407233700881560683215226207764128961043974281990870076164572110192561354724411357533523598745360379372768693509085544006422619094662227796509442171243951884236226743040382655836165745409255910630303341089809353498897119573834799433440670313013318484758369259760043937290479919074513397219637874633699675761585574468299612057660554980020973197272707466740821561605804876343547368158066676105009362083159085093821880242774455869535517095109180667293064209096059361238693637562950391938106487944461627290866359858704845857564779208775917373851892149706668140193637178780350658184933354242943724437616262882543541403929000281359420684522645219602531584247525000151931851450072467064913625693609640883817691763548480062227739033940715625242207456812667448409367872013677647560819312323409084970192291160513808345695951334961318376773158520138834728467319718130453630129701764593509674524756606150452179256704401431175064205347114952820290364873678107203690652975809694480065045711318537173123114316498633686226627388995209818738959739633088636920213987292493349527061819594077313067033941527827191303744952627522623044474688345038839303373424454085549657378244021194536791459551033409672838926273924497638232177422040963220130546581212645612007281489105409423040461937923556581322132040524895655566656853710397399639024847003352286577888522698179594002666717138437661740657199107872662312989695015253939779459464044534478882122480418118329967203824502482642225016636314165947447947088362655607451267168064496294478520294045034843513324617091182240499004299573639072552056556567385906803519023706170778402530035255726938619123206588974290554801252447997307694679202208792432510707547850104922641814397954080101321265218912662565267062810794348587219439079115390874612665312271565442854295197520570661481486650116472427579150457515878147160271194150201510881375672272889472060170446738947053153604904994533199206602938570389638156181187117837649129917024716537572624577731431545032178043498984905264584040431508880999838188320331817472380839217425867210519941014682702731349263632381829424781360751034754353063066711776542506493577177584874730467362704427015866394218662020858459107043272185261326822623651951720857592016349381925199194639016693553461592384447616265804699169033408202648211710441316099514503292514629703727168644380524731260475821449729685911625121023381387231250683610821749422717621534208877982242327598488808134221189574122163035670923107897781276449481872043774193711265238508766567347262680037716189106405090204028273745473887210981286342516055751345549313345825695059627022024979533755644914832487342543439815079552825105126344195884478491221239655391385348022174325193662543852252426323773395760808927713431128792091250311464244458485359004125111305887627613798350972247094580405703008875889713754841665724817394873734659708971208318447587259663655332256165307326442879061248976910855842058559262806897770695313574164429883708231585759009729718977832644636652632711584870788107863256978698176394280635678860122205920818116912065534287560990710194082655772295015279732310954105668781888106740490824624865073281352719149367786578097908093905355853969363021084484775625370803755315750828383222776936039785956625922562016350522928082508729189535212708445042254463453808006732332048333768203507140763334990540103532740143929104584597138627594141305196512878438263129990734315702077374490681952474902479305044962714751436117149151818352900482746764467357865560158718504993683694526555819184861243095121377188369613566803077396772432030024456335013587408792970690768448636854556483265603624459580123370413054688478339327713896074256220594120055264109528142912259715693468329438690891982452571403650768602960319925240112109315327526525599061848394615884023642475704119937669857908558322507566917842562926259000831593830393685634302411532911095667354436750763266840698291093460998432953892018215461685438420000118807315923398636062489170107976875924734904393912085051113763505782317780859925821662108344747012678357720726283012277116240049603669973044454121953094369586706029906887549037559214953694847540109804786420523301108501542910186443616829135334918285498548564658286967816586945588058047999458168937333778709498814456301227079597922989688207585875655794995913001640132608404361343186773418532106141374452580314880618075669105544300360790288051909046632944491798852565475682019805994949428656573476887214041814162134535459576159476206664428126221700433454515464162410744765923329639604492757376002981749043652350423960266113525772118233508891183700196786167592214019152454048620437954019037635427043510698527785103898925967951303985591344520420384897575798652093312389168617572738917670893794848879692031664439771509854771153007309380874359518330337616022315866211305326298668022748579453886663478106111013373791775074335525787592780276804282942394933045372890844127721477943810299491325561230365533199344963954962398827741271783656239893601895264008641335711700674517773613098003576980368614681787597707999044640428354423630402299497304018382919387073340735959003225110282612744778101736066030137734904962392613526442323126728599921232936452139909347528867548826294953375653949289221699755152606298870288182310046456568691962548991171312694756758656669077007804215916977092399883114689498404806623853831031449861925470264811922404597253156573257301847059406284344999918894803601804480860273050419464086850764868034442255026813129789745392485327481839794635557225532658582907613134506851500494186659338604712041719303390831701549832058911357382510306634835120869458881999073460680750745740480954018548363742322907656516866285734100972930072360228070091750384863506465585652938521326291728826118355443064537686317673385071434085170841187506389129623429975148583755698617902477514899040345997920809553276775059399809297467793421729342176254743828843973921367805640728902023645582927454346341555206850038290884904101463480877968254612919203311636275468370939118369113125042945911653353408092003874453903871359282264925880339692530315394497024891118433212074016894907017199308771324013552929862386335243547496709178299756527427833999722560129724930473345217567697995747650836428273959574442913842989229506725675241054645825334032732263802142520426282489090558808504598653389754380556568491040305703512438446984504686515913204245195573504549361199720827696881487377544049749955475015678119991315433930266243146797711674205541581655940290950668780507904512237624712145954859668799616964875987333344350651505267589646695385846423562139040755286478066838278670573173051756113433727417685424414513206108757248488506315929345555194428161614760092629629357691511669702854107497315746114133395527350059168426556214505536536409980145376401439669804533179794258260535671758465216567293643966772691662297571528776900258092482105074934319611195337754266031821824845514543427323352317238261787999558772531919681098269317834004300453543577480544396875446223008256615904095649885184983107160377809378355725655137421158482028145008355316473358952984600892930391738683408834277621605738465197835647279106855469788035559983207352632563624773373812766520676651769154170172451884270632668090592200212631507529118523008913328172424722910338816409159589550158928277973873821526390994179123903597483875453488036345579663393659066361869270165142388121070636822447781975767421660402135227150678316072086184064963205759781545598606499122121714600361077933295009403625721613634722814674656882250189633148370628699344060780876684803041130186811423694229380633965795538221692367784801646772351008876537624958750735336402539070954907482815652137499751820189545400937637829800075420929424841938705730391346212741946345418316930510274958736111635337275905345484332862375494059617875930821547331572032435697398224540746377810609304028282465582419310400888405803237056411429802271364534260512157264511738563333452226658070300058338152841549895574715358085347662393370672464750677264091213862336213182036999203289082943359089925419974930707965580690446440035722292545903946896550366872102285581982098447660137065563226686869931072987932917473288105943952794042369378795972419174114136749090272291104148563534534921430028399125140130717398099020418801891958455889872457635460916931916237571607001154080879550403081276405926314580172545718541754166567975429485237825184789673540891773844039618120284816880477165152576587529986285937659797884697319104906824198026685971884308767837272885320999156396288318822740140697567993040898028410380922909009250437778877203185106414065519885199863118155659764201826899709296694322477828254754753042555513832988655894088800334005075491112003116428038500450263861583272992944241219395354041663909453925694935070919660972327860727118160030614807919043134387752294313110512013472111118158662183263200780471406543665263660808312124556258219491111783605200581788286488975259551278953900054506959714158979254305491133541546905370840182851311468927666549843013740178656484296501245416098931586029603538047815099195141297321322071101260843947717293002783033863355972051418552590408219964637398640898913102273930792979310062647359799881604796722576560000629444447123766449634644010114398102942946224611367828243829064082730587968242020072760930682341232566944221879934446731716434945179251534246663744340910438541630537841036292295138727345374825985116832743341861149838553826432792083251425512113112745768586464025126228461380038162436531708288310030440506091924483393576646725970389389790957072825940412260822422400972320055833614620124211972888028322744205285341636234899365357339947424824969071333890833981605826203907325802208715142331864263864629803408580136018255990832166080370922287624811275733951495307881372018995641804435885889216269695504618474889453512327063819205524295966153539066173493233132084864070103290096003858321318973972944760963541159719080657387274654718934843837978498515199995798884443674952127283867442167971059140449369503386435909222851886155745846026243922493452851706379787893820603488980145225437759615269281404331694801274575689631614444417381322302986906505817053334982526788933315574870018324630522145715456800205953638956158381052195514237679535935674470730757860064636824854659205790265405909572793288329692458976626215348889632876353039213500511968404705867600747923109083018318794552010719958791977502114608947861949447113090109098520494261282058457722872362238623238397780840970800246150238770255964835583503114363516266441666915699223834265857008895972811637233504162905868969417163644132675006678148683382726688264029217305101978359060569880719496603187689956635915956646616062361056627590310060

set_option maxHeartbeats 4000000 in
lemma primeMask_value : primeMask = primeMaskLit := by decide

set_option maxHeartbeats 12000000 in
/-- Kernel evaluation of the popcount: 9999 primes below 104729. -/
lemma popcount_primeMask : popcount 20 104729 primeMask = 9999 := by
  rw [primeMask_value]
  decide

lemma primeMask_testBit {n : Nat} (hn : n < 104729) :
    primeMask.testBit n = true ↔ Nat.Prime n := by
  rw [show primeMask = ((1 <<< 104729) - 1) ^^^ (sieve ||| 3) from rfl]
  rw [Nat.testBit_xor, Nat.testBit_or, one_shiftLeft_eq,
    Nat.testBit_two_pow_sub_one, decide_eq_true hn,
    show (3 : Nat) = 2 ^ 2 - 1 by norm_num, Nat.testBit_two_pow_sub_one,
    Bool.true_xor, Bool.not_eq_true', Bool.or_eq_false_iff,
    decide_eq_false_iff_not]
  constructor
  · rintro ⟨hbit, h2⟩
    by_contra hnp
    rw [sieve_bit_of_composite (by omega) (by omega) hnp] at hbit
    cases hbit
  · intro hp
    refine ⟨?_, by have := hp.two_le; omega⟩
    rcases hb : sieve.testBit n with _ | _
    · rfl
    · exact absurd hp (sieve_bit_imp hb).1

lemma count_prime_104729 : Nat.count Nat.Prime 104729 = 9999 := by
  rw [Nat.count_eq_card_filter_range]
  have hcongr : (Finset.range 104729).filter Nat.Prime =
      (Finset.range 104729).filter (fun i => primeMask.testBit i = true) := by
    apply Finset.filter_congr
    intro x hx
    rw [Finset.mem_range] at hx
    exact (primeMask_testBit hx).symm
  rw [hcongr, ← bitcnt_card, ← popcount_eq 20 104729 primeMask, popcount_primeMask]

/-- 104729 is the 10000th prime (0-indexed 9999th). -/
lemma nth_prime_9999 : Nat.nth Nat.Prime 9999 = 104729 := by
  have hp : Nat.Prime 104729 := by
    obtain ⟨b, hb, hiff⟩ := is_prime_correct 104729 (by norm_num [N0])
    have hbt : is_prime 104729 = some true := by decide
    rw [hb] at hbt
    injection hbt with hbt
    exact hiff.mp hbt
  have h := Nat.nth_count hp
  rwa [count_prime_104729] at h

lemma nth_prime_one : Nat.nth Nat.Prime 1 = 3 := by
  have h := Nat.nth_count Nat.prime_three
  have hc : Nat.count Nat.Prime 3 = 1 := by
    simp [Nat.count_succ, Nat.count_zero, Nat.not_prime_zero, Nat.not_prime_one,
      Nat.prime_two]
  rwa [hc] at h

/-! ### The claims -/

/-- C1: the claim that `is_prime n` returns true exactly for the
primes over the whole unsigned 64-bit range fails on the code.  At the
input 18446744073709551557 = 2^64 - 59, which is prime, the
trial-division loop marches to the probe i = 4294967297 whose square
does not fit in 64 bits: the squaring `i * i` overflows (a program
error: abort with overflow checks, wraparound without), so the
function does not return `true`. -/
theorem c1_is_prime_aborts_on_largest_prime :
    is_prime 18446744073709551557 = none ∧ Nat.Prime 18446744073709551557 :=
  ⟨is_prime_overflow prime_18446744073709551557 (by norm_num [N0]),
    prime_18446744073709551557⟩

/-- C2: the claim that the implementation prevents the squaring
`i * i` from overflowing fails: the code computes `i * i` unguarded,
and on the prime input 2^64 - 59 the loop reaches a probe whose square
exceeds the 64-bit range, aborting.  Below `N0 = 4294967291 ^ 2` the
guard indeed never overflows and `is_prime` always returns a
boolean. -/
theorem c2_squaring_overflow :
    trialLoop 18446744073709551557 primeFuel 5 = none ∧
      (∀ n, n < N0 → is_prime n ≠ none) := by
  constructor
  · exact trialLoop_overflow prime_18446744073709551557 (by norm_num [N0])
      715827882 primeFuel 5 (by norm_num [primeFuel]) (by norm_num) (by norm_num)
  · intro n hn hnone
    obtain ⟨b, hb, _⟩ := is_prime_correct n hn
    rw [hb] at hnone
    cases hnone

theorem c2_squaring_overflow_witness : is_prime 104729 ≠ none :=
  c2_squaring_overflow.2 104729 (by norm_num [N0])

/-- C3 (counterexample): the claim that for EVERY k ≥ 1 the k-th call
returns Some of the k-th prime is false: the generator's values are
64-bit, hence below 2^64, while the k-th prime eventually exceeds
2^64. -/
theorem c3_not_every_k :
    ¬ ∀ k, 1 ≤ k → output (k - 1) = some (some (Nat.nth Nat.Prime (k - 1))) := by
  intro H
  have hinf : (setOf Nat.Prime).Infinite := Nat.infinite_setOf_prime
  have hbig : U64 ≤ Nat.nth Nat.Prime U64 := (Nat.nth_strictMono hinf).le_apply
  have hout := H (U64 + 1) (by omega)
  have hout2 : output U64 = some (some (Nat.nth Nat.Prime U64)) := by
    simpa using hout
  have hlt : Nat.nth Nat.Prime U64 < U64 := output_lt hout2
  omega

/-- C3 (amended): for every k whose (k+1)-st prime lies in the
overflow-free range (in particular for all k < 10000), the (k+1)-st
call returns Some of that prime; the first five values are
2, 3, 5, 7, 11 and the 10000th value is 104729. -/
theorem c3_generator_yields_primes :
    (∀ k, Nat.nth Nat.Prime k < N0 → output k = some (some (Nat.nth Nat.Prime k))) ∧
      (output 0 = some (some 2) ∧ output 1 = some (some 3) ∧
        output 2 = some (some 5) ∧ output 3 = some (some 7) ∧
        output 4 = some (some 11)) ∧
      output 9999 = some (some 104729) := by
  refine ⟨output_eq, ⟨by decide, by decide, by decide, by decide, by decide⟩, ?_⟩
  have h := output_eq 9999 (by rw [nth_prime_9999]; norm_num [N0])
  rwa [nth_prime_9999] at h

theorem c3_generator_yields_primes_witness :
    output 1 = some (some (Nat.nth Nat.Prime 1)) :=
  c3_generator_yields_primes.1 1 (by rw [nth_prime_one]; norm_num [N0])

/-- C4: a fresh generator has cursor 1 and has emitted nothing; a
normally returning call to `next` returns the first value above the
cursor that `is_prime` accepts (every value in between having been
tested and rejected) and leaves the cursor at the returned value. -/
theorem c4_cursor_semantics :
    PrimeIterator.new.number = 1 ∧
      ∀ s r s1, PrimeIterator.next s = some (r, s1) →
        ∃ v, r = some v ∧ s1.number = v ∧ s.number < v ∧
          is_prime v = some true ∧
          ∀ m, s.number < m → m < v → is_prime m = some false := by
  refine ⟨rfl, fun s r s1 h => ?_⟩
  obtain ⟨v, hr, hs, hlt, _, hp, hscan⟩ := next_char h
  exact ⟨v, hr, by rw [hs], hlt, hp, hscan⟩

theorem c4_cursor_semantics_witness :
    ∃ v, (some 2 : Option Nat) = some v ∧ (⟨2⟩ : PrimeIterator).number = v ∧
      (⟨1⟩ : PrimeIterator).number < v ∧ is_prime v = some true ∧
      ∀ m, (⟨1⟩ : PrimeIterator).number < m → m < v →
        is_prime m = some false :=
  c4_cursor_semantics.2 ⟨1⟩ (some 2) ⟨2⟩ (by decide)

/-- C6: values returned by successive calls are strictly increasing,
and a call from cursor `s` examines each number in `(s, v]` exactly
once (every number strictly between cursor and returned value was
tested and rejected), the cursor resuming at the returned value. -/
theorem c6_strictly_increasing :
    (∀ k v w, output k = some (some v) → output (k + 1) = some (some w) → v < w) ∧
      ∀ s r s1, PrimeIterator.next s = some (r, s1) →
        s.number < s1.number ∧
          ∀ m, s.number < m → m < s1.number → is_prime m = some false := by
  constructor
  · intro k v w h1 h2
    exact output_succ_gt h1 h2
  · intro s r s1 h
    obtain ⟨v, _, hs, hlt, _, _, hscan⟩ := next_char h
    subst hs
    exact ⟨hlt, hscan⟩

theorem c6_strictly_increasing_witness : (2 : Nat) < 3 :=
  c6_strictly_increasing.1 0 2 3 (by decide) (by decide)

/-- C7: `is_prime` returns false for 0 and 1 and true for 2 and 3. -/
theorem c7_small_inputs :
    (∀ n, n ≤ 1 → is_prime n = some false) ∧
      is_prime 2 = some true ∧ is_prime 3 = some true := by
  refine ⟨fun n hn => ?_, by decide, by decide⟩
  have h01 : n = 0 ∨ n = 1 := by omega
  rcases h01 with rfl | rfl <;> decide

theorem c7_small_inputs_witness : is_prime 1 = some false :=
  c7_small_inputs.1 1 (by norm_num)

/-- C8: for every n > 3 divisible by 2 or by 3, `is_prime n` returns
false (via the early `n % 2 == 0 || n % 3 == 0` branch, before the
loop). -/
theorem c8_multiple_of_two_or_three :
    ∀ n, 3 < n → (n % 2 = 0 ∨ n % 3 = 0) → is_prime n = some false := by
  intro n h3 hdiv
  have hcond : (n % 2 == 0 || n % 3 == 0) = true := by
    rcases hdiv with h | h <;> simp [h]
  unfold is_prime
  rw [if_neg (by omega), if_neg (by omega), if_pos hcond]

theorem c8_multiple_of_two_or_three_witness : is_prime 4 = some false :=
  c8_multiple_of_two_or_three 4 (by norm_num) (Or.inl (by norm_num))

/-- C9: the embedding is deterministic: `is_prime` is a pure function
of its input, and `next` is a pure function of the cursor, so two
generators in equal states produce equal results; in particular two
freshly constructed generators produce identical sequences. -/
theorem c9_deterministic :
    (∀ n : Nat, is_prime n = is_prime n) ∧
      ∀ s t : PrimeIterator, s.number = t.number →
        PrimeIterator.next s = PrimeIterator.next t := by
  refine ⟨fun n => rfl, fun s t h => ?_⟩
  unfold PrimeIterator.next
  rw [h]

theorem c9_deterministic_witness :
    PrimeIterator.next PrimeIterator.new = PrimeIterator.next ⟨1⟩ :=
  c9_deterministic.2 PrimeIterator.new ⟨1⟩ rfl

/-- C10: whenever a call to `next` returns at all, the returned Rust
value is `Some _`: the source's only return site wraps the found prime
in `Some`, so no path produces `None`. -/
theorem c10_next_never_none :
    ∀ s r s1, PrimeIterator.next s = some (r, s1) → r.isSome = true := by
  intro s r s1 h
  obtain ⟨v, hr, _⟩ := next_char h
  rw [hr]
  rfl

theorem c10_next_never_none_witness : (some 2 : Option Nat).isSome = true :=
  c10_next_never_none ⟨1⟩ (some 2) ⟨2⟩ (by decide)

/-- C5: the claim that `is_prime` is total (terminates with a boolean
for every 64-bit input) fails: at the prime input 2^64 - 59 the
squaring overflow aborts the computation, so no boolean is
returned. -/
theorem c5_not_total_on_u64 :
    (is_prime 18446744073709551557).isSome = false := by
  rw [is_prime_overflow prime_18446744073709551557 (by norm_num [N0])]
  rfl

example : is_prime 0 = some false := by decide
example : is_prime 1 = some false := by decide
example : is_prime 2 = some true := by decide
example : is_prime 3 = some true := by decide
example : is_prime 4 = some false := by decide
example : is_prime 5 = some true := by decide
example : is_prime 104729 = some true := by decide
example : is_prime 104730 = some false := by decide
example : output 0 = some (some 2) := by decide
example : output 1 = some (some 3) := by decide
example : output 2 = some (some 5) := by decide
example : output 3 = some (some 7) := by decide
example : output 4 = some (some 11) := by decide
